import Mathlib

/-!
Verification development for the SOP-Backend RAG service.

The definitions below are a shallow embedding of `src/rag/service.py` and
`src/services/rag_api.py`.  Python dictionaries produced by deserializing
the project-data JSON are embedded as structures whose fields are `Option`s
(`none` models an absent key, so `d.get(k, default)` becomes
`Option.getD`), and Python `None` foreign keys compare equal exactly as
`Option.none == Option.none` does.  Mutable module-level globals
(`_vector_store`, `_rag_chain`, `_embeddings`, `_current_project_id`)
become an explicit `RagState`, the on-disk `rag_db/<project_id>` folders
become a `FileSystem` map, and environment variables become an `Env`
record.  The FAISS index is represented by the list of documents it was
built from; embedding-based similarity retrieval and the chat model are
abstracted as oracle functions passed to `query_rag`.
-/

namespace SOP

/-- A Module record of the project data (`modules` entries in
`create_document_chunks`); every field models a dictionary key that may be
absent. -/
structure Module where
  id : Option String
  module_name : Option String
  description : Option String
  priority : Option String
  business_impact : Option String
deriving DecidableEq, Repr

/-- A UserStory record (`user_stories` entries). `module_id` is the
foreign key into `Module.id`; both may be absent. -/
structure UserStory where
  id : Option String
  module_id : Option String
  title : Option String
  user_role : Option String
  description : Option String
  priority : Option String
  status : Option String
deriving DecidableEq, Repr

/-- A Feature record (`features` entries). `user_story_id` is the foreign
key into `UserStory.id`. -/
structure Feature where
  user_story_id : Option String
  title : Option String
  priority : Option String
  status : Option String
deriving DecidableEq, Repr

/-- The `project` sub-dictionary (only the keys read by the chunk
builder). `none` at the outer level models an absent or empty dictionary,
which the Python truthiness test treats identically. -/
structure ProjectMeta where
  name : Option String
  application_type : Option String
deriving DecidableEq, Repr

/-- The `project_information` sub-dictionary (keys read by the chunk
builder). -/
structure ProjectInfo where
  vision : Option String
  purpose : Option String
  objectives : Option String
  functional_requirements : Option String
  non_functional_requirements : Option String
deriving DecidableEq, Repr

/-- One business-rule category dictionary (`categories` entries). -/
structure RuleCategory where
  name : Option String
  description : Option String
  applicableTo : List String
deriving DecidableEq, Repr

/-- The `business_rules` dictionary.  The code first looks for a
`categories` key at the root, then for `config.categories`; `categories`
here is `some cs` when the root key is present, and `config_categories`
is `some cs` when a `config` key is present (holding that config's
`categories`, defaulting to `[]`). -/
structure BusinessRules where
  categories : Option (List RuleCategory)
  config_categories : Option (List RuleCategory)
deriving DecidableEq, Repr

/-- A value of the tech-stack mapping: either a list of technologies or a
single non-list value (the code branches on `isinstance(technologies, list)`). -/
inductive TechValue where
  | many (ts : List String)
  | one (t : String)
deriving DecidableEq, Repr

/-- The `uiux_guidelines` dictionary (only the `guidelines` key is read). -/
structure Uiux where
  guidelines : Option String
deriving DecidableEq, Repr

/-- The deserialized project-data record passed to the service.  List
fields model `project_data.get(key, [])`; `Option` fields model the
dictionary-valued keys, with `none` for an absent or empty (hence falsy)
dictionary.  `tech_stack` holds the items of `actual_stack`, i.e. the
dictionary after the code unwraps an optional nested `tech_stack` key
(`[]` when `actual_stack` is not a dictionary). -/
structure ProjectData where
  project : Option ProjectMeta
  project_information : Option ProjectInfo
  modules : List Module
  user_stories : List UserStory
  features : List Feature
  business_rules : Option BusinessRules
  tech_stack : Option (List (String × TechValue))
  uiux_guidelines : Option Uiux
deriving DecidableEq, Repr

/-- A LangChain `Document`: `page_content` plus the metadata keys the
service attaches.  `module_id`'s outer `Option` records whether the
metadata key is present at all; its inner value may itself be the absent
module id. -/
structure Document where
  page_content : String
  source : String
  type_tag : Option String
  module_name : Option String
  module_id : Option (Option String)
  keywords : Option String
  priority_tag : Option String
deriving DecidableEq, Repr

/- ------------------------------------------------------------------ -/
/- Chunk builder: `create_document_chunks` (service.py lines 37-269).  -/
/- ------------------------------------------------------------------ -/

/-- Fixed header of the module roster chunk (service.py lines 51-52). -/
def moduleListHeader : String :=
  "ALL MODULES IN THIS PROJECT - COMPLETE LIST OF MODULE NAMES:\n\nThis is the complete list of all modules in the project.\n"

/-- The total line of the module roster chunk (service.py line 53). -/
def moduleListTotalLine (n : Nat) : String :=
  "Total number of modules: " ++ toString n ++ "\n\n"

/-- The quick name list of the roster chunk (service.py line 58). -/
def moduleNamesOf (modules : List Module) : List String :=
  modules.map (fun m => m.module_name.getD "Unnamed")

/-- The 1-based detailed per-module lines of the roster chunk
(service.py lines 63-66). -/
def moduleListDetailLines : Nat → List Module → String
  | _, [] => ""
  | i, m :: rest =>
      ("\n" ++ toString i ++ ". MODULE NAME: " ++ m.module_name.getD "Unnamed"
        ++ "\n   Description: " ++ m.description.getD "No description available"
        ++ "\n   Priority: " ++ m.priority.getD "Not specified" ++ "\n")
      ++ moduleListDetailLines (i + 1) rest

/-- Everything of the module roster text after the total line
(service.py lines 54-70). -/
def moduleListTail (modules : List Module) : String :=
  "MODULE NAMES AND DESCRIPTIONS:\n\nQuick List of Module Names:\n• "
  ++ String.intercalate ", " (moduleNamesOf modules)
  ++ "\n\nDetailed Module List:\n"
  ++ moduleListDetailLines 1 modules
  ++ "\n===== END OF MODULE LIST =====\nTotal Modules in Project: "
  ++ toString modules.length
  ++ "\nNote: For detailed information about any module including user stories and features, refer to individual module chunks."

/-- The full module roster text (concatenation of service.py lines 51-70). -/
def moduleListText (modules : List Module) : String :=
  moduleListHeader ++ moduleListTotalLine modules.length ++ moduleListTail modules

/-- The module roster document with its metadata (service.py lines 72-80). -/
def moduleListDoc (modules : List Module) : Document :=
  ⟨moduleListText modules, "Module List Overview", some "module_list", none, none,
    some "all modules, module list, complete list, module names, list of modules", some "high"⟩

/-- Chunk 1: the roster is emitted only when `modules` is truthy, i.e.
non-empty (service.py line 49). -/
def moduleListChunks (modules : List Module) : List Document :=
  match modules with
  | [] => []
  | _ => [moduleListDoc modules]

/-- The 1-based lines of the user-stories roster (service.py lines 88-89). -/
def storiesListLines : Nat → List UserStory → String
  | _, [] => ""
  | i, st :: rest =>
      (toString i ++ ". " ++ st.title.getD "Unnamed Story"
        ++ " (Priority: " ++ st.priority.getD "N/A"
        ++ ", Status: " ++ st.status.getD "N/A" ++ ")\n")
      ++ storiesListLines (i + 1) rest

/-- The user-stories roster text (service.py lines 85-91). -/
def storiesListText (user_stories : List UserStory) : String :=
  "ALL USER STORIES IN THIS PROJECT - COMPLETE LIST:\n\nTotal number of user stories: "
  ++ toString user_stories.length
  ++ "\n\nUSER STORY TITLES:\n"
  ++ storiesListLines 1 user_stories
  ++ "\n===== END OF USER STORIES LIST =====\nTotal User Stories: "
  ++ toString user_stories.length ++ "\n"

/-- Chunk 2: the stories roster, emitted when `user_stories` is non-empty
(service.py lines 84, 93-101). -/
def storiesListChunks (user_stories : List UserStory) : List Document :=
  match user_stories with
  | [] => []
  | _ => [⟨storiesListText user_stories, "User Stories List", some "stories_list", none, none,
      some "all user stories, user story list, complete list", some "high"⟩]

/-- The 1-based lines of the features roster (service.py lines 109-110). -/
def featuresListLines : Nat → List Feature → String
  | _, [] => ""
  | i, f :: rest =>
      (toString i ++ ". " ++ f.title.getD "Unnamed Feature"
        ++ " (Priority: " ++ f.priority.getD "N/A"
        ++ ", Status: " ++ f.status.getD "N/A" ++ ")\n")
      ++ featuresListLines (i + 1) rest

/-- The features roster text (service.py lines 106-112). -/
def featuresListText (features : List Feature) : String :=
  "ALL FEATURES IN THIS PROJECT - COMPLETE LIST:\n\nTotal number of features: "
  ++ toString features.length
  ++ "\n\nFEATURE TITLES:\n"
  ++ featuresListLines 1 features
  ++ "\n===== END OF FEATURES LIST =====\nTotal Features: "
  ++ toString features.length ++ "\n"

/-- Chunk 3: the features roster, emitted when `features` is non-empty
(service.py lines 105, 114-122). -/
def featuresListChunks (features : List Feature) : List Document :=
  match features with
  | [] => []
  | _ => [⟨featuresListText features, "Features List", some "features_list", none, none,
      some "all features, feature list, complete list", some "high"⟩]

/-- The user stories whose `module_id` equals this module's `id` — the
list comprehension of service.py line 137.  Absent keys are `none` on
both sides, and `none == none` is `true`, exactly like Python
`None == None`. -/
def storiesForModule (user_stories : List UserStory) (m : Module) : List UserStory :=
  user_stories.filter (fun us => us.module_id == m.id)

/-- The features whose `user_story_id` equals this story's `id` — the
list comprehension of service.py line 149. -/
def storyFeatures (features : List Feature) (st : UserStory) : List Feature :=
  features.filter (fun f => f.user_story_id == st.id)

/-- One feature bullet inside a module detail chunk (service.py line 153). -/
def featureLine (f : Feature) : String :=
  "      - " ++ f.title.getD "N/A" ++ " (Priority: " ++ f.priority.getD "N/A"
  ++ ", Status: " ++ f.status.getD "N/A" ++ ")\n"

/-- One user story block inside a module detail chunk
(service.py lines 141-153). -/
def storyText (features : List Feature) (st : UserStory) : String :=
  "\n  • " ++ st.title.getD "N/A" ++ "\n    Role: " ++ st.user_role.getD "N/A"
  ++ "\n    Description: " ++ st.description.getD "N/A"
  ++ "\n    Priority: " ++ st.priority.getD "N/A" ++ ", Status: " ++ st.status.getD "N/A" ++ "\n"
  ++ (if (storyFeatures features st).isEmpty then ""
      else "    Features:\n" ++ String.join ((storyFeatures features st).map featureLine))

/-- The text of one per-module detail chunk (service.py lines 131-155). -/
def detailText (m : Module) (user_stories : List UserStory) (features : List Feature) : String :=
  "Module: " ++ m.module_name.getD "Unnamed Module"
  ++ "\nDescription: " ++ m.description.getD "N/A"
  ++ "\nPriority: " ++ m.priority.getD "N/A"
  ++ "\nBusiness Impact: " ++ m.business_impact.getD "N/A" ++ "\n\n"
  ++ (if (storiesForModule user_stories m).isEmpty then "User Stories: None defined yet\n"
      else "User Stories (" ++ toString (storiesForModule user_stories m).length ++ " total):\n"
        ++ String.join ((storiesForModule user_stories m).map (storyText features)))

/-- One per-module detail document with its metadata
(service.py lines 158-161). -/
def mkDetailChunk (m : Module) (user_stories : List UserStory) (features : List Feature) : Document :=
  ⟨detailText m user_stories features, "Module Detail", none,
    some (m.module_name.getD "Unnamed Module"), some m.id, none, none⟩

/-- Chunk 4: one detail chunk per module (service.py lines 126-161). -/
def moduleDetailChunks (modules : List Module) (user_stories : List UserStory)
    (features : List Feature) : List Document :=
  modules.map (fun m => mkDetailChunk m user_stories features)

/-- The project-overview text (service.py lines 167-176). -/
def overviewText (project : Option ProjectMeta) (info : Option ProjectInfo) : String :=
  "Project Overview:\n\n"
  ++ (match project with
      | none => ""
      | some p =>
          "Project Name: " ++ p.name.getD "N/A"
          ++ "\nApplication Type: " ++ p.application_type.getD "N/A" ++ "\n\n")
  ++ (match info with
      | none => ""
      | some pi =>
          "Vision: " ++ pi.vision.getD "N/A"
          ++ "\nPurpose: " ++ pi.purpose.getD "N/A"
          ++ "\nObjectives: " ++ pi.objectives.getD "N/A"
          ++ "\nFunctional Requirements: " ++ pi.functional_requirements.getD "N/A"
          ++ "\nNon-Functional Requirements: " ++ pi.non_functional_requirements.getD "N/A" ++ "\n")

/-- Chunk 5: the overview, emitted when `project_information` or `project`
is truthy (service.py lines 164-181). -/
def overviewChunks (project : Option ProjectMeta) (info : Option ProjectInfo) : List Document :=
  match project, info with
  | none, none => []
  | _, _ => [⟨overviewText project info, "Project Overview", some "overview", none, none, none, none⟩]

/-- One business-rule category bullet (service.py lines 207-222).  The
description line is omitted when the description is absent or empty, both
falsy in Python. -/
def categoryText (c : RuleCategory) : String :=
  "• " ++ c.name.getD "Rule" ++ ":\n"
  ++ (if c.description.getD "" = "" then "" else "  " ++ c.description.getD "" ++ "\n")
  ++ (if c.applicableTo.isEmpty then "  📍 Applicable to: All modules\n"
      else "  📍 Applicable to: " ++ String.intercalate ", " c.applicableTo ++ "\n")
  ++ "\n"

/-- The category list the code settles on: the root `categories` key if
present, else `config.categories` if a `config` key is present, else `[]`
(service.py lines 195-203). -/
def rulesCategories (br : BusinessRules) : List RuleCategory :=
  match br.categories with
  | some cs => cs
  | none =>
      match br.config_categories with
      | some cs => cs
      | none => []

/-- The business-rules chunk text (service.py lines 186-228). -/
def rulesText (br : BusinessRules) : String :=
  "GLOBAL BUSINESS RULES (Project-level Rules):\n\nNote: These are project-wide business rules that apply across modules, distinct from feature-specific business rules.\n\n"
  ++ String.join ((rulesCategories br).map categoryText)
  ++ (if (rulesCategories br).isEmpty then ""
      else "\nTotal Global Business Rules: " ++ toString (rulesCategories br).length ++ "\n")
  ++ "\nNote: Individual features may have their own specific business rules. Check feature details for feature-level rules.\n"

/-- Chunk 6: the business-rules chunk, emitted when `business_rules` is
truthy (service.py lines 184-233). -/
def businessRulesChunks (br : Option BusinessRules) : List Document :=
  match br with
  | none => []
  | some b => [⟨rulesText b, "Global Business Rules", some "global_rules", none, none,
      some "business rules, global rules, project rules", none⟩]

/-- One tech-stack category block (service.py lines 242-249). -/
def techEntryText (e : String × TechValue) : String :=
  e.1 ++ ":\n"
  ++ (match e.2 with
      | TechValue.many ts => String.join (ts.map (fun t => "  • " ++ t ++ "\n"))
      | TechValue.one t => "  • " ++ t ++ "\n")
  ++ "\n"

/-- The tech-stack chunk text (service.py lines 239-249). -/
def techStackText (entries : List (String × TechValue)) : String :=
  "Technology Stack:\n\n" ++ String.join (entries.map techEntryText)

/-- Chunk 7: the tech-stack chunk, emitted when `tech_stack` is truthy
(service.py lines 236-254). -/
def techStackChunks (ts : Option (List (String × TechValue))) : List Document :=
  match ts with
  | none => []
  | some entries => [⟨techStackText entries, "Tech Stack", some "technology", none, none, none, none⟩]

/-- Chunk 8: the UI/UX chunk, emitted when `uiux_guidelines` is truthy
(service.py lines 257-266). -/
def uiuxChunks (u : Option Uiux) : List Document :=
  match u with
  | none => []
  | some g => [⟨"UI/UX Guidelines:\n\n" ++ g.guidelines.getD "No guidelines defined yet",
      "UI/UX Guidelines", some "design", none, none, none, none⟩]

/-- `create_document_chunks` (service.py lines 37-269): the eight chunk
groups appended in source order. -/
def create_document_chunks (pd : ProjectData) : List Document :=
  moduleListChunks pd.modules
  ++ storiesListChunks pd.user_stories
  ++ featuresListChunks pd.features
  ++ moduleDetailChunks pd.modules pd.user_stories pd.features
  ++ overviewChunks pd.project pd.project_information
  ++ businessRulesChunks pd.business_rules
  ++ techStackChunks pd.tech_stack
  ++ uiuxChunks pd.uiux_guidelines

/-- A document is a per-module detail chunk iff its metadata source is
`Module Detail`. -/
def isDetail (d : Document) : Bool :=
  d.source == "Module Detail"

/-- A document is the module roster iff its metadata type is
`module_list`. -/
def isRoster (d : Document) : Bool :=
  d.type_tag == some "module_list"

/- ------------------------------------------------------------------ -/
/- Service state machine: `initialize_rag` / `query_rag`               -/
/- (service.py lines 271-548) and the API layer (rag_api.py).          -/
/- ------------------------------------------------------------------ -/

/-- The module-level globals of service.py (lines 31-35).  An index or a
chain is represented by the list of documents backing it; the embedding
model handle is tracked only as loaded-or-not (the
`hasattr(_embeddings, \x27_model_changed\x27)` probe on line 288 is always
false for a `HuggingFaceEmbeddings` object, so once the handle is loaded
the early return fires). -/
structure RagState where
  vector_store : Option (List Document)
  rag_chain : Option (List Document)
  embeddings_loaded : Bool
  current_project_id : Option String
deriving DecidableEq, Repr

/-- All globals start as `None` (service.py lines 31-35). -/
def initState : RagState :=
  ⟨none, none, false, none⟩

/-- The environment variables read by `initialize_rag`:
`OPENROUTER_API_KEY` presence (line 282) and `RAG_FORCE_REBUILD`
(line 352). -/
structure Env where
  api_key_present : Bool
  force_rebuild : Bool
deriving DecidableEq, Repr

/-- The persisted `rag_db/<project_id>` folders: `none` when no
`index.faiss` exists for that project id; otherwise the documents of the
saved store. -/
abbrev FileSystem := String → Option (List Document)

/-- A file system with no persisted index. -/
def emptyFs : FileSystem := fun _ => none

/-- `save_local` into the project folder (service.py lines 370, 378). -/
def updateFs (fs : FileSystem) (project_id : String) (docs : List Document) : FileSystem :=
  fun p => if p = project_id then some docs else fs p

/-- The errors `initialize_rag` can raise: the missing-API-key
`ValueError` (line 283) and the empty-corpus `ValueError`
("No documents created from project data", line 297). -/
inductive RagError where
  | apiKeyMissing
  | emptyCorpus
deriving DecidableEq, Repr

/-- The outcome of a successful `initialize_rag` call: the new globals,
the new persisted state, and whether a fresh `FAISS.from_documents`
build/embedding pass ran (as opposed to an early return or a
`load_local`). -/
structure InitResult where
  state : RagState
  fs : FileSystem
  built : Bool

/-- `initialize_rag` (service.py lines 271-428).  Control flow in source
order: the API-key check (282-283), the already-initialized early return
keyed on `project_id` alone (286-289), chunk creation and the
empty-corpus check (294-297), then either `load_local` of a persisted
index when one exists and `RAG_FORCE_REBUILD` is unset (354-362) or a
fresh `FAISS.from_documents` build followed by `save_local` (366-379).
`load_local` is modeled as succeeding; on the Python error path the
mutation of `_current_project_id` (line 291) before the raise is dropped,
which no reuse decision can observe because `_vector_store` stays `None`. -/
def init_rag (env : Env) (s : RagState) (fs : FileSystem) (project_id : String)
    (pd : ProjectData) : Except RagError InitResult :=
  if env.api_key_present = false then
    Except.error RagError.apiKeyMissing
  else if s.current_project_id = some project_id ∧ s.vector_store.isSome = true ∧
      s.embeddings_loaded = true then
    Except.ok ⟨s, fs, false⟩
  else if create_document_chunks pd = [] then
    Except.error RagError.emptyCorpus
  else
    match fs project_id, env.force_rebuild with
    | some persisted, false =>
        Except.ok ⟨⟨some persisted, some persisted, true, some project_id⟩, fs, false⟩
    | _, _ =>
        Except.ok ⟨⟨some (create_document_chunks pd), some (create_document_chunks pd), true,
          some project_id⟩, updateFs fs project_id (create_document_chunks pd), true⟩

/-- The error `query_rag` raises when `_rag_chain is None`
(service.py lines 436-437). -/
inductive QueryError where
  | notInited
deriving DecidableEq, Repr

/-- `format_docs` (service.py lines 420-421). -/
def format_docs (docs : List Document) : String :=
  String.intercalate "\n\n---\n\n" (docs.map (fun d => d.page_content))

/-- The fixed instruction preamble of the prompt template up to the
context slot (service.py lines 397-411). -/
def prompt_preamble : String :=
  "You are an expert project assistant for a software development team. \nAnswer the user\x27s question based on the following project context.\n\nIMPORTANT INSTRUCTIONS:\n- If asked to list ALL modules or module names, look for the \"MODULE LIST OVERVIEW\" or \"ALL MODULES IN THIS PROJECT\" section\n- When you see \"Total Modules: X\", ensure your answer includes exactly X modules\n- For listing questions, use the dedicated list chunks that contain complete lists\n- If asked for details about a specific module, use the individual module chunks\n- Always provide the COMPLETE list when asked for \"all\" items\n- If the context contains a \"Quick List of Module Names\" section, use it for module name questions\n- Distinguish between \"Global Business Rules\" (project-level) and feature-specific business rules\n- When discussing business rules, mention which modules they apply to if specified\n\n<context>\n"

/-- The assembled prompt (the template of service.py lines 397-416 with
the context and question substituted). -/
def promptOf (context question : String) : String :=
  prompt_preamble ++ context ++ "\n</context>\n\nQuestion: " ++ question ++ "\n\nAnswer:"

/-- `query_rag` (service.py lines 430-548).  The chain
`retriever | format_docs | prompt | llm | StrOutputParser()` is embedded
with two oracles: `retrieve` models the similarity-based top-3 retriever
over the resident store, and `llm` models the chat model composed with
`StrOutputParser` (which extracts the message text verbatim).  The
returned answer is the chain output as-is (line 545). -/
def query_rag (s : RagState) (retrieve : List Document → String → List Document)
    (llm : String → String) (question : String) : Except QueryError String :=
  match s.rag_chain with
  | none => Except.error QueryError.notInited
  | some docs => Except.ok (llm (promptOf (format_docs (retrieve docs question)) question))

/-- The `/query` endpoint (rag_api.py lines 59-66): it receives a
`project_id` in the request but calls `query_rag(request.question)`,
ignoring it. -/
def api_query (s : RagState) (retrieve : List Document → String → List Document)
    (llm : String → String) (request_project_id question : String) : Except QueryError String :=
  query_rag s retrieve llm question

/-- An index is resident for a project id when the globals carry that id
and a live chain. -/
def residentFor (s : RagState) (project_id : String) : Prop :=
  s.current_project_id = some project_id ∧ s.rag_chain.isSome = true

/- ------------------------------------------------------------------ -/
/- Concrete sample data used by witnesses and counterexamples.         -/
/- ------------------------------------------------------------------ -/

/-- A module with id `m1`. -/
def m0 : Module := ⟨some "m1", some "Auth", none, none, none⟩

/-- A second module with id `m2`. -/
def mCat : Module := ⟨some "m2", some "Catalog", none, none, none⟩

/-- Project data with a single module and nothing else. -/
def d1 : ProjectData := ⟨none, none, [m0], [], [], none, none, none⟩

/-- Project data identical to `d1` except for one additional module. -/
def d2 : ProjectData := ⟨none, none, [m0, mCat], [], [], none, none, none⟩

/-- Project data with no facets at all: the chunk builder yields `[]`. -/
def dNoFacets : ProjectData := ⟨none, none, [], [], [], none, none, none⟩

/-- Sample data for orphan-story claims: one module, one story attached
to it, one orphan story, and a feature on the attached story. -/
def usAttached : UserStory := ⟨some "s1", some "m1", some "Login", none, none, none, none⟩

/-- A story whose `module_id` matches no module of `d4`. -/
def usOrphan : UserStory := ⟨some "s2", some "zzz", some "Ghost", none, none, none, none⟩

/-- A module with an absent `id`. -/
def mNoId : Module := ⟨none, some "Loose", none, none, none⟩

/-- A story with an absent `module_id` and absent `id`. -/
def usNoMid : UserStory := ⟨none, none, some "Floating", none, none, none, none⟩

/-- A feature with an absent `user_story_id`. -/
def fNoSid : Feature := ⟨none, some "Drift", none, none⟩

/-- Project data exercising orphan matching: modules `m0` and `mNoId`,
stories `usAttached`, `usOrphan` and `usNoMid`, feature `fNoSid`. -/
def d4 : ProjectData := ⟨none, none, [m0, mNoId], [usAttached, usOrphan, usNoMid], [fNoSid], none, none, none⟩

/-- Environment with the API key present and no forced rebuild. -/
def envT : Env := ⟨true, false⟩

/-- Environment with the API key present and `RAG_FORCE_REBUILD=true`. -/
def envF : Env := ⟨true, true⟩

/-- The chunks of `d1`. -/
def docs1 : List Document := create_document_chunks d1

/-- The chunks of `d2`. -/
def docs2 : List Document := create_document_chunks d2

/-- The globals after a fresh build for project `p` from `d1`. -/
def s1 : RagState := ⟨some docs1, some docs1, true, some "p"⟩

/-- The persisted state after that build. -/
def fs1 : FileSystem := updateFs emptyFs "p" docs1

/-- The globals after a fresh build for project `A` from `d1`. -/
def sA : RagState := ⟨some docs1, some docs1, true, some "A"⟩

/-- The persisted state after the build for `A`. -/
def fsA : FileSystem := updateFs emptyFs "A" docs1

/-- The result record of the fresh build for `A` from `d1`. -/
def rA : InitResult := ⟨sA, fsA, true⟩

/-- The globals after a subsequent fresh build for project `B` from `d2`. -/
def sB : RagState := ⟨some docs2, some docs2, true, some "B"⟩

/-- The persisted state after the build for `B`. -/
def fsB : FileSystem := updateFs fsA "B" docs2

/-- A retriever oracle returning no documents. -/
def retr0 : List Document → String → List Document := fun _ _ => []

/-- A model oracle answering a fixed string. -/
def llmAns : String → String := fun _ => "answer"

/-- A model oracle whose output has leading and trailing whitespace. -/
def llmPad : String → String := fun _ => " padded "

/- ------------------------------------------------------------------ -/
/- Helper lemmas about the chunk builder.                              -/
/- ------------------------------------------------------------------ -/

theorem filter_detail_moduleList (ms : List Module) :
    (moduleListChunks ms).filter isDetail = [] := by
  cases ms <;> rfl

theorem filter_detail_storiesList (us : List UserStory) :
    (storiesListChunks us).filter isDetail = [] := by
  cases us <;> rfl

theorem filter_detail_featuresList (fs : List Feature) :
    (featuresListChunks fs).filter isDetail = [] := by
  cases fs <;> rfl

theorem filter_detail_overview (p : Option ProjectMeta) (i : Option ProjectInfo) :
    (overviewChunks p i).filter isDetail = [] := by
  cases p <;> cases i <;> rfl

theorem filter_detail_rules (br : Option BusinessRules) :
    (businessRulesChunks br).filter isDetail = [] := by
  cases br <;> rfl

theorem filter_detail_tech (ts : Option (List (String × TechValue))) :
    (techStackChunks ts).filter isDetail = [] := by
  cases ts <;> rfl

theorem filter_detail_uiux (u : Option Uiux) :
    (uiuxChunks u).filter isDetail = [] := by
  cases u <;> rfl

theorem filter_detail_details (ms : List Module) (us : List UserStory) (fs : List Feature) :
    (moduleDetailChunks ms us fs).filter isDetail = moduleDetailChunks ms us fs := by
  induction ms with
  | nil => rfl
  | cons m rest ih =>
      simp only [moduleDetailChunks, List.map_cons] at ih ⊢
      rw [List.filter_cons_of_pos]
      · rw [ih]
      · rfl

/-- The per-module detail chunks of the builder output are exactly one
`mkDetailChunk` per module, in module order. -/
theorem filter_isDetail_eq (pd : ProjectData) :
    (create_document_chunks pd).filter isDetail
      = pd.modules.map (fun m => mkDetailChunk m pd.user_stories pd.features) := by
  simp only [create_document_chunks, List.filter_append, filter_detail_moduleList,
    filter_detail_storiesList, filter_detail_featuresList, filter_detail_overview,
    filter_detail_rules, filter_detail_tech, filter_detail_uiux, filter_detail_details,
    List.nil_append, List.append_nil]
  rfl

theorem filter_roster_storiesList (us : List UserStory) :
    (storiesListChunks us).filter isRoster = [] := by
  cases us <;> rfl

theorem filter_roster_featuresList (fs : List Feature) :
    (featuresListChunks fs).filter isRoster = [] := by
  cases fs <;> rfl

theorem filter_roster_overview (p : Option ProjectMeta) (i : Option ProjectInfo) :
    (overviewChunks p i).filter isRoster = [] := by
  cases p <;> cases i <;> rfl

theorem filter_roster_rules (br : Option BusinessRules) :
    (businessRulesChunks br).filter isRoster = [] := by
  cases br <;> rfl

theorem filter_roster_tech (ts : Option (List (String × TechValue))) :
    (techStackChunks ts).filter isRoster = [] := by
  cases ts <;> rfl

theorem filter_roster_uiux (u : Option Uiux) :
    (uiuxChunks u).filter isRoster = [] := by
  cases u <;> rfl

theorem filter_roster_details (ms : List Module) (us : List UserStory) (fs : List Feature) :
    (moduleDetailChunks ms us fs).filter isRoster = [] := by
  induction ms with
  | nil => rfl
  | cons m rest ih =>
      simp only [moduleDetailChunks, List.map_cons] at ih ⊢
      rw [List.filter_cons_of_neg]
      · exact ih
      · simp [isRoster, mkDetailChunk]

theorem filter_roster_moduleList (ms : List Module) :
    (moduleListChunks ms).filter isRoster = moduleListChunks ms := by
  cases ms <;> rfl

/-- The roster chunks of the builder output are exactly the module-list
group. -/
theorem filter_isRoster_eq (pd : ProjectData) :
    (create_document_chunks pd).filter isRoster = moduleListChunks pd.modules := by
  simp only [create_document_chunks, List.filter_append, filter_roster_moduleList,
    filter_roster_storiesList, filter_roster_featuresList, filter_roster_overview,
    filter_roster_rules, filter_roster_tech, filter_roster_uiux, filter_roster_details,
    List.nil_append, List.append_nil]

/- ------------------------------------------------------------------ -/
/- Claim theorems.                                                     -/
/- ------------------------------------------------------------------ -/

/-- Claim C3: for every `ProjectData` with `n` modules,
`create_document_chunks` emits exactly `n` per-module detail chunks; when
`n > 0` it emits exactly one module roster chunk whose text states a
total equal to `n`, and when `n = 0` neither the roster nor any detail
chunk is produced. -/
theorem C3_roster_and_detail_counts (pd : ProjectData) :
    ((create_document_chunks pd).filter isDetail).length = pd.modules.length ∧
    (pd.modules = [] → (create_document_chunks pd).filter isRoster = []) ∧
    (pd.modules ≠ [] →
      (create_document_chunks pd).filter isRoster = [moduleListDoc pd.modules] ∧
      ∃ pre post, (moduleListDoc pd.modules).page_content
        = pre ++ ("Total number of modules: " ++ toString pd.modules.length ++ "\n\n") ++ post) := by
  refine ⟨?_, ?_, ?_⟩
  · rw [filter_isDetail_eq]
    exact List.length_map _ _
  · intro h
    rw [filter_isRoster_eq, h]
    rfl
  · intro h
    rw [filter_isRoster_eq]
    obtain ⟨m, rest, hmr⟩ : ∃ m rest, pd.modules = m :: rest := by
      cases hpm : pd.modules with
      | nil => exact absurd hpm h
      | cons a l => exact ⟨a, l, rfl⟩
    rw [hmr]
    exact ⟨rfl, moduleListHeader, moduleListTail (m :: rest), rfl⟩

/-- Claim C3 witness: concrete instances with zero and with two modules. -/
theorem C3_witness :
    (create_document_chunks dNoFacets).filter isRoster = [] ∧
    (create_document_chunks d2).filter isRoster = [moduleListDoc d2.modules] ∧
    ((create_document_chunks d2).filter isDetail).length = 2 :=
  ⟨(C3_roster_and_detail_counts dNoFacets).2.1 rfl,
   ((C3_roster_and_detail_counts d2).2.2 (by decide)).1,
   (C3_roster_and_detail_counts d2).1⟩

/-- Claim C4: a user story whose `module_id` matches no module id is
contained in no per-module story selection, hence appears in no
per-module detail chunk of `create_document_chunks` (which are exactly
the `mkDetailChunk`s over those selections), and the builder is a total
function so its presence never raises. -/
theorem C4_orphan_story_excluded (pd : ProjectData) (us : UserStory)
    (horphan : ∀ m ∈ pd.modules, m.id ≠ us.module_id) :
    (∀ m ∈ pd.modules, us ∉ storiesForModule pd.user_stories m) ∧
    (create_document_chunks pd).filter isDetail
      = pd.modules.map (fun m => mkDetailChunk m pd.user_stories pd.features) := by
  refine ⟨?_, filter_isDetail_eq pd⟩
  intro m hm hmem
  have hpred := (List.mem_filter.mp hmem).2
  have heq : us.module_id = m.id := by simpa using hpred
  exact horphan m hm heq.symm

/-- Claim C4 witness: the orphan story `usOrphan` of `d4` is in neither
module's story selection. -/
theorem C4_witness :
    usOrphan ∉ storiesForModule d4.user_stories m0 ∧
    usOrphan ∉ storiesForModule d4.user_stories mNoId :=
  ⟨(C4_orphan_story_excluded d4 usOrphan (by decide)).1 m0 (by decide),
   (C4_orphan_story_excluded d4 usOrphan (by decide)).1 mNoId (by decide)⟩

/-- Claim C10: a module with an absent `id` and a user story with an
absent `module_id` are matched (both keys default to `none`, and
`none == none`), so the story lands in that module's story selection and
the module's detail chunk is among the builder's detail chunks; features
with an absent `user_story_id` match a story with an absent `id` the same
way. -/
theorem C10_missing_ids_match (pd : ProjectData) (m : Module) (us : UserStory)
    (hm : m ∈ pd.modules) (hus : us ∈ pd.user_stories)
    (hmid : m.id = none) (husid : us.module_id = none) :
    us ∈ storiesForModule pd.user_stories m ∧
    mkDetailChunk m pd.user_stories pd.features ∈ (create_document_chunks pd).filter isDetail ∧
    (∀ f ∈ pd.features, us.id = none → f.user_story_id = none →
      f ∈ storyFeatures pd.features us) := by
  refine ⟨?_, ?_, ?_⟩
  · exact List.mem_filter.mpr ⟨hus, by simp [husid, hmid]⟩
  · rw [filter_isDetail_eq]
    exact List.mem_map_of_mem _ hm
  · intro f hf hid hsid
    exact List.mem_filter.mpr ⟨hf, by simp [hid, hsid]⟩

/-- Claim C10 witness: in `d4`, the id-less story `usNoMid` is selected
for the id-less module `mNoId`, and the story-id-less feature `fNoSid`
is selected for it. -/
theorem C10_witness :
    usNoMid ∈ storiesForModule d4.user_stories mNoId ∧
    fNoSid ∈ storyFeatures d4.features usNoMid :=
  ⟨(C10_missing_ids_match d4 mNoId usNoMid (by decide) (by decide) rfl rfl).1,
   (C10_missing_ids_match d4 mNoId usNoMid (by decide) (by decide) rfl rfl).2.2 fNoSid
     (by decide) rfl rfl⟩

/-- Invariant of every successful `init_rag` call: the API key was
present, the resulting globals carry the requested project id with a live
store and loaded embeddings, and no other project's persisted folder is
touched. -/
theorem init_ok_inv (env : Env) (s : RagState) (fs : FileSystem) (pid : String)
    (pd : ProjectData) (r : InitResult)
    (h : init_rag env s fs pid pd = Except.ok r) :
    env.api_key_present = true ∧ r.state.current_project_id = some pid ∧
    r.state.vector_store.isSome = true ∧ r.state.embeddings_loaded = true ∧
    ∀ p, p ≠ pid → r.fs p = fs p := by
  by_cases hk : env.api_key_present = false
  · simp [init_rag, hk] at h
  · have hk' : env.api_key_present = true := by
      cases hkk : env.api_key_present
      · exact absurd hkk hk
      · rfl
    by_cases hres : s.current_project_id = some pid ∧ s.vector_store.isSome = true ∧
        s.embeddings_loaded = true
    · rw [init_rag, if_neg hk, if_pos hres] at h
      injection h with h'
      subst h'
      exact ⟨hk', hres.1, hres.2.1, hres.2.2, fun p hp => rfl⟩
    · by_cases hemp : create_document_chunks pd = []
      · rw [init_rag, if_neg hk, if_neg hres, if_pos hemp] at h
        exact absurd h (by simp)
      · rw [init_rag, if_neg hk, if_neg hres, if_neg hemp] at h
        rcases hfs : fs pid with _ | persisted
        · rw [hfs] at h
          injection h with h'
          subst h'
          refine ⟨hk', rfl, rfl, rfl, fun p hp => ?_⟩
          simp [updateFs, hp]
        · rw [hfs] at h
          cases hforce : env.force_rebuild
          · rw [hforce] at h
            injection h with h'
            subst h'
            exact ⟨hk', rfl, rfl, rfl, fun p hp => rfl⟩
          · rw [hforce] at h
            injection h with h'
            subst h'
            refine ⟨hk', rfl, rfl, rfl, fun p hp => ?_⟩
            simp [updateFs, hp]

/-- Claim C1 (code bug): after a build for project `p` from `d1`, calling
`init_rag` again with the same `project_id` but changed data `d2` (one
additional module) does NOT rebuild: the early return keyed on
`project_id` alone fires, the call reports success with no build pass,
and the resident store still holds the chunks of `d1` even though `d2`
produces a different chunk list. -/
theorem C1_staleness_code_bug :
    init_rag envT initState emptyFs "p" d1 = Except.ok ⟨s1, fs1, true⟩ ∧
    init_rag envT s1 fs1 "p" d2 = Except.ok ⟨s1, fs1, false⟩ ∧
    s1.vector_store = some (create_document_chunks d1) ∧
    (create_document_chunks d1).length ≠ (create_document_chunks d2).length :=
  ⟨rfl, rfl, rfl, by decide⟩

/-- Claim C2: after any successful `init_rag` call for `pid`, a second
call with the same environment, same project id and the same (indeed,
any) project data returns early, reusing the resident index: the state
and persisted files are unchanged and no build pass runs. -/
theorem C2_second_call_reuses (env : Env) (s : RagState) (fs : FileSystem)
    (pid : String) (pd : ProjectData) (r1 : InitResult)
    (h1 : init_rag env s fs pid pd = Except.ok r1) :
    init_rag env r1.state r1.fs pid pd = Except.ok ⟨r1.state, r1.fs, false⟩ := by
  obtain ⟨hkey, hcur, hvs, hemb, -⟩ := init_ok_inv env s fs pid pd r1 h1
  rw [init_rag, if_neg (by simp [hkey]), if_pos ⟨hcur, hvs, hemb⟩]

/-- Claim C2 witness: the concrete double call for project `p` on `d1`. -/
theorem C2_witness :
    init_rag envT s1 fs1 "p" d1 = Except.ok ⟨s1, fs1, false⟩ :=
  C2_second_call_reuses envT initState emptyFs "p" d1 ⟨s1, fs1, true⟩ rfl

/-- Claim C5: when the call does not hit the resident-index early return
and the API key is present, `init_rag` fails with the empty-corpus error
exactly when the chunk builder yields no chunks, and in that case it
never returns success (no index is built or registered); with at least
one chunk, the empty-corpus error is never raised. -/
theorem C5_empty_corpus (env : Env) (s : RagState) (fs : FileSystem) (pid : String)
    (pd : ProjectData)
    (hkey : env.api_key_present = true)
    (hfresh : ¬(s.current_project_id = some pid ∧ s.vector_store.isSome = true ∧
      s.embeddings_loaded = true)) :
    (init_rag env s fs pid pd = Except.error RagError.emptyCorpus ↔
      create_document_chunks pd = []) ∧
    (create_document_chunks pd = [] → ∀ r, init_rag env s fs pid pd ≠ Except.ok r) := by
  have hmain : init_rag env s fs pid pd = Except.error RagError.emptyCorpus ↔
      create_document_chunks pd = [] := by
    constructor
    · intro herr
      by_cases hemp : create_document_chunks pd = []
      · exact hemp
      · rw [init_rag, if_neg (by simp [hkey]), if_neg hfresh, if_neg hemp] at herr
        rcases hfs : fs pid with _ | persisted
        · rw [hfs] at herr
          exact absurd herr (by simp)
        · rw [hfs] at herr
          cases hforce : env.force_rebuild
          · rw [hforce] at herr
            exact absurd herr (by simp)
          · rw [hforce] at herr
            exact absurd herr (by simp)
    · intro hemp
      rw [init_rag, if_neg (by simp [hkey]), if_neg hfresh, if_pos hemp]
  refine ⟨hmain, fun hemp r hok => ?_⟩
  rw [hmain.mpr hemp] at hok
  exact Except.noConfusion hok

/-- Claim C5 witness: with no facets at all the concrete call errors. -/
theorem C5_witness :
    init_rag envT initState emptyFs "p" dNoFacets = Except.error RagError.emptyCorpus :=
  (C5_empty_corpus envT initState emptyFs "p" dNoFacets rfl (by decide)).1.mpr rfl

/-- Claim C6 counterexample: with `RAG_FORCE_REBUILD=true` but an index
already resident for project `p`, the call returns early with no build
pass at all — the flag does not override the resident cache, refuting
"always performs a fresh build regardless of cache state". -/
theorem C6_counterexample :
    envF.force_rebuild = true ∧
    init_rag envF s1 fs1 "p" d1 = Except.ok ⟨s1, fs1, false⟩ ∧
    s1.current_project_id = some "p" ∧ s1.vector_store.isSome = true :=
  ⟨rfl, rfl, rfl, rfl⟩

/-- Claim C6 (amended): when the forced-rebuild flag is set and the
resident-cache early return does not fire, every successful `init_rag`
call performs a fresh build from the given data — regardless of any index
persisted on storage — and persists it. -/
theorem C6_forced_rebuild_builds (env : Env) (s : RagState) (fs : FileSystem)
    (pid : String) (pd : ProjectData) (r : InitResult)
    (hforce : env.force_rebuild = true)
    (hfresh : ¬(s.current_project_id = some pid ∧ s.vector_store.isSome = true ∧
      s.embeddings_loaded = true))
    (h : init_rag env s fs pid pd = Except.ok r) :
    r.built = true ∧ r.state.vector_store = some (create_document_chunks pd) ∧
    r.fs pid = some (create_document_chunks pd) := by
  by_cases hk : env.api_key_present = false
  · simp [init_rag, hk] at h
  · by_cases hemp : create_document_chunks pd = []
    · rw [init_rag, if_neg hk, if_neg hfresh, if_pos hemp] at h
      exact absurd h (by simp)
    · rw [init_rag, if_neg hk, if_neg hfresh, if_neg hemp] at h
      rcases hfs : fs pid with _ | persisted
      · rw [hfs] at h
        injection h with h'
        subst h'
        exact ⟨rfl, rfl, by simp [updateFs]⟩
      · rw [hfs, hforce] at h
        injection h with h'
        subst h'
        exact ⟨rfl, rfl, by simp [updateFs]⟩

/-- Claim C6 witness: a fresh forced build for `p` from `d1` builds and
persists. -/
theorem C6_witness :
    envF.force_rebuild = true ∧
    (⟨⟨some docs1, some docs1, true, some "p"⟩, updateFs emptyFs "p" docs1, true⟩ :
      InitResult).built = true ∧
    (⟨⟨some docs1, some docs1, true, some "p"⟩, updateFs emptyFs "p" docs1, true⟩ :
      InitResult).state.vector_store = some (create_document_chunks d1) :=
  ⟨rfl,
   (C6_forced_rebuild_builds envF initState emptyFs "p" d1
     ⟨⟨some docs1, some docs1, true, some "p"⟩, updateFs emptyFs "p" docs1, true⟩
     rfl (by decide) rfl).1,
   (C6_forced_rebuild_builds envF initState emptyFs "p" d1
     ⟨⟨some docs1, some docs1, true, some "p"⟩, updateFs emptyFs "p" docs1, true⟩
     rfl (by decide) rfl).2.1⟩

/-- Claim C7 counterexample: with project `A` initialized and resident,
querying for the never-initialized project `B` succeeds — the endpoint
ignores `request.project_id` — even though no index (resident or
persisted) exists for `B`, refuting "fails with NotInitialized iff no
index exists for that project_id". -/
theorem C7_counterexample :
    init_rag envT initState emptyFs "A" d1 = Except.ok ⟨sA, fsA, true⟩ ∧
    api_query sA retr0 llmAns "B" "q" = Except.ok "answer" ∧
    sA.current_project_id ≠ some "B" ∧ fsA "B" = none :=
  ⟨rfl, rfl, by decide, rfl⟩

/-- Claim C7 (amended): the query operation fails with `NotInitialized`
iff no RAG chain is resident at all (no project was ever initialized);
the `project_id` named in the request is ignored. -/
theorem C7_not_initialized_iff (s : RagState)
    (retrieve : List Document → String → List Document) (llm : String → String)
    (request_pid question : String) :
    api_query s retrieve llm request_pid question = Except.error QueryError.notInited ↔
      s.rag_chain = none := by
  cases hc : s.rag_chain <;> simp [api_query, query_rag, hc]

/-- Claim C8 counterexample: initializing project `A` and then project
`B` leaves only `B`'s index resident — the single-slot globals evict
`A`'s index, refuting "the index built for A remains resident alongside
the index for B". -/
theorem C8_counterexample :
    init_rag envT initState emptyFs "A" d1 = Except.ok ⟨sA, fsA, true⟩ ∧
    init_rag envT sA fsA "B" d2 = Except.ok ⟨sB, fsB, true⟩ ∧
    sB.current_project_id = some "B" ∧
    ¬ residentFor sB "A" ∧
    docs1.length ≠ docs2.length :=
  ⟨rfl, rfl, rfl, fun hres => absurd hres.1 (by decide), by decide⟩

/-- Claim C8 (amended): every successful `init_rag` call leaves exactly
the requested project's index resident in the single-slot globals
(initializing `B` replaces a resident `A`), while the persisted folders
of all other projects are untouched. -/
theorem C8_single_resident_slot (env : Env) (s : RagState) (fs : FileSystem)
    (pid : String) (pd : ProjectData) (r : InitResult)
    (h : init_rag env s fs pid pd = Except.ok r) :
    r.state.current_project_id = some pid ∧ r.state.vector_store.isSome = true ∧
    ∀ p, p ≠ pid → r.fs p = fs p := by
  obtain ⟨-, h1, h2, -, h3⟩ := init_ok_inv env s fs pid pd r h
  exact ⟨h1, h2, h3⟩

/-- Claim C8 witness: the concrete build for `A` leaves `A` resident and
`B`'s persisted folder untouched. -/
theorem C8_witness :
    rA.state.current_project_id = some "A" ∧ rA.state.vector_store.isSome = true ∧
    rA.fs "B" = emptyFs "B" :=
  ⟨(C8_single_resident_slot envT initState emptyFs "A" d1 rA rfl).1,
   (C8_single_resident_slot envT initState emptyFs "A" d1 rA rfl).2.1,
   (C8_single_resident_slot envT initState emptyFs "A" d1 rA rfl).2.2 "B" (by decide)⟩

/-- Claim C9 counterexample: when the model output is `" padded "`, the
query operation returns `" padded "` unchanged — the returned answer
begins and ends with whitespace, refuting "the returned string never
begins or ends with whitespace". -/
theorem C9_counterexample :
    api_query sA retr0 llmPad "A" "q" = Except.ok " padded " ∧
    " padded ".data.head? = some ' ' :=
  ⟨rfl, rfl⟩

/-- Claim C9 (amended): the answer returned by the query operation is the
language model's text output exactly as produced (`StrOutputParser`
extracts the message text verbatim and the service applies no trimming),
so leading or trailing whitespace in the model output is preserved. -/
theorem C9_answer_unmodified (s : RagState)
    (retrieve : List Document → String → List Document) (llm : String → String)
    (request_pid question : String) (docs : List Document)
    (hchain : s.rag_chain = some docs) :
    api_query s retrieve llm request_pid question
      = Except.ok (llm (promptOf (format_docs (retrieve docs question)) question)) := by
  simp [api_query, query_rag, hchain]

/-- Claim C9 witness: the concrete resident state returns the padded
model output as-is. -/
theorem C9_witness :
    api_query s1 retr0 llmPad "p" "q"
      = Except.ok (llmPad (promptOf (format_docs (retr0 docs1 "q")) "q")) :=
  C9_answer_unmodified s1 retr0 llmPad "p" "q" docs1 rfl

end SOP
